import Mathlib

/-!
Verification of the `svchelper` Windows service wrapper.

The package has three parts:
* `service.go` — the SCM dispatch loop `Execute` plus `RunService`;
* one file with `usage`, `ManageService`, `StartService`, `ControlService`;
* one file with `ExePath`, `InstallService`, `RemoveService`.

The embedding below models the OS service-manager calls (`mgr.Connect`,
`OpenService`, `CreateService`, `Delete`, `Control`, `Query`, `Start`,
event-log registration) as oracles: each operation takes a record of the
results the OS would return and produces its Go return value together
with the trace of calls it issued.  `Execute` is modelled as a function
from the sequence of events its `select` loop observes (a context
cancellation or a received change request) to the trace of its effects
(statuses sent on `changes`, `cancel`, `wg.Wait`, log lines, the final
return).  `Close`/`Disconnect` cleanup calls, whose results the Go code
ignores, are not traced.
-/

/- Constants of golang.org/x/sys/windows/svc, as used by the source. -/

abbrev Cmd := Nat

def Cmd.Stop : Cmd := 1

def Cmd.Pause : Cmd := 2

def Cmd.Continue : Cmd := 3

def Cmd.Interrogate : Cmd := 4

def Cmd.Shutdown : Cmd := 5

abbrev SvcState := Nat

def SvcState.Stopped : SvcState := 1

def SvcState.StartPending : SvcState := 2

def SvcState.StopPending : SvcState := 3

def SvcState.Running : SvcState := 4

def SvcState.Paused : SvcState := 7

def AcceptStop : Nat := 1

def AcceptPauseAndContinue : Nat := 2

def AcceptShutdown : Nat := 4

/-- svc.Status: only the fields the source reads or writes. -/
structure Status where
  state : SvcState
  accepts : Nat
  deriving DecidableEq

/-- svc.ChangeRequest: the fields the source reads are cmd, currentStatus
and context; eventType/eventData are carried for fidelity but unused. -/
structure ChangeRequest where
  cmd : Cmd
  eventType : Nat
  eventData : Nat
  currentStatus : Status
  context : Nat
  deriving DecidableEq

/-- One observation of the select loop in Execute: either the user task's
context is done, or a change request arrives on the `r` channel. -/
inductive Event where
  | ctxDone : Event
  | recv : ChangeRequest → Event
  deriving DecidableEq

/-- An effect of Execute, in program order. -/
inductive Act where
  | sendStatus : Status → Act
  | cancel : Act
  | wgWait : Act
  | logScheduleError : String → Act
  | logCancelled : Act
  | logTestOutput : List String → Nat → Act
  | logUnexpected : Cmd → Act
  | sleep : Nat → Act
  | ret : Bool → Nat → Act
  deriving DecidableEq

/-- service.go line 66: `const cmdsAccepted = svc.AcceptStop | svc.AcceptShutdown`
(the `svc.AcceptPauseAndContinue` term is commented out in the source). -/
def cmdsAccepted : Nat := AcceptStop ||| AcceptShutdown

/-- The `loop: for { select { ... } }` body of Execute (service.go lines 78-105),
run on the list of observed events.  Returns the actions performed and
whether `break loop` was reached; an exhausted event list with a `false`
flag models an execution still blocked in `select`. -/
def execLoop (args : List String) : List Event → List Act × Bool
  | [] => ([], false)
  | Event.ctxDone :: _ => ([Act.logCancelled, Act.wgWait], true)
  | Event.recv c :: rest =>
    if c.cmd = Cmd.Interrogate then
      let r := execLoop args rest
      (Act.sendStatus c.currentStatus :: Act.sleep 100 ::
        Act.sendStatus c.currentStatus :: r.1, r.2)
    else if c.cmd = Cmd.Stop ∨ c.cmd = Cmd.Shutdown then
      ([Act.logTestOutput args c.context, Act.cancel, Act.wgWait], true)
    else
      let r := execLoop args rest
      (Act.logUnexpected c.cmd :: r.1, r.2)

/-- service.go lines 65-108, `(*ServiceWrapper).Execute`.  `scheduleErr` is
the result of the user-supplied `Schedule` call; `events` is the sequence
the select loop observes.  Output is the trace of effects; a trace without
a `ret` models an execution that never returns. -/
def Execute (args : List String) (scheduleErr : Option String)
    (events : List Event) : List Act :=
  Act.sendStatus ⟨SvcState.StartPending, 0⟩ ::
    match scheduleErr with
    | some e => [Act.logScheduleError e, Act.cancel, Act.wgWait,
        Act.ret false 1]
    | none =>
      let r := execLoop args events
      Act.sendStatus ⟨SvcState.Running, cmdsAccepted⟩ ::
        (r.1 ++ if r.2 then
          [Act.sendStatus ⟨SvcState.StopPending, 0⟩, Act.ret false 0]
        else [])

/-- The states of the statuses a trace sends on the `changes` channel. -/
def statusesSent : List Act → List Status
  | [] => []
  | Act.sendStatus s :: rest => s :: statusesSent rest
  | _ :: rest => statusesSent rest

/-- An event that makes the command loop `break`: a context cancellation or
a received Stop/Shutdown request. -/
def terminates : Event → Bool
  | Event.ctxDone => true
  | Event.recv c => c.cmd == Cmd.Stop || c.cmd == Cmd.Shutdown

theorem statusesSent_append (xs ys : List Act) :
    statusesSent (xs ++ ys) = statusesSent xs ++ statusesSent ys := by
  induction xs with
  | nil => rfl
  | cons a rest ih => cases a <;> simp [statusesSent, ih]

/-- Claim C9: if the user-supplied Schedule call fails, Execute logs the
error, cancels the context, waits on the wait group and returns errno 1,
and the only status ever sent on the changes channel is StartPending
(no Running, no StopPending). -/
theorem Execute_schedule_error_path (args : List String) (e : String)
    (events : List Event) :
    Execute args (some e) events =
      [Act.sendStatus ⟨SvcState.StartPending, 0⟩, Act.logScheduleError e,
        Act.cancel, Act.wgWait, Act.ret false 1] ∧
    statusesSent (Execute args (some e) events) =
      [⟨SvcState.StartPending, 0⟩] := by
  exact ⟨rfl, rfl⟩

/-- Claim C6: an Interrogate change request makes Execute forward the
request's current status back on the changes channel (twice, with a 100 ms
sleep between, per the deadlock workaround); it emits no cancel, and the
loop continues exactly as it would on the remaining events. -/
theorem execLoop_interrogate_forwards_status (args : List String)
    (c : ChangeRequest) (rest : List Event) (h : c.cmd = Cmd.Interrogate) :
    execLoop args (Event.recv c :: rest) =
      (Act.sendStatus c.currentStatus :: Act.sleep 100 ::
        Act.sendStatus c.currentStatus :: (execLoop args rest).1,
       (execLoop args rest).2) ∧
    Act.cancel ∉ [Act.sendStatus c.currentStatus, Act.sleep 100,
      Act.sendStatus c.currentStatus] := by
  refine ⟨?_, by simp⟩
  simp [execLoop, h]

theorem execLoop_interrogate_forwards_status_witness :
    execLoop ["a"] [Event.recv ⟨4, 0, 0, ⟨SvcState.Running, 5⟩, 0⟩] =
      (Act.sendStatus ⟨SvcState.Running, 5⟩ :: Act.sleep 100 ::
        Act.sendStatus ⟨SvcState.Running, 5⟩ :: (execLoop ["a"] []).1,
       (execLoop ["a"] []).2) ∧
    Act.cancel ∉ [Act.sendStatus ⟨SvcState.Running, 5⟩, Act.sleep 100,
      Act.sendStatus ⟨SvcState.Running, 5⟩] :=
  execLoop_interrogate_forwards_status ["a"] ⟨4, 0, 0, ⟨SvcState.Running, 5⟩, 0⟩ []
    (by decide)

/-- Claim C10: a change request whose command is none of Interrogate, Stop
or Shutdown is only logged as an unexpected control request: no status is
sent, no cancel is emitted, and the loop continues exactly as it would on
the remaining events. -/
theorem execLoop_unexpected_command_ignored (args : List String)
    (c : ChangeRequest) (rest : List Event)
    (h1 : c.cmd ≠ Cmd.Interrogate) (h2 : c.cmd ≠ Cmd.Stop)
    (h3 : c.cmd ≠ Cmd.Shutdown) :
    execLoop args (Event.recv c :: rest) =
      (Act.logUnexpected c.cmd :: (execLoop args rest).1,
       (execLoop args rest).2) ∧
    (∀ s : Status, Act.sendStatus s ≠ Act.logUnexpected c.cmd) ∧
    Act.cancel ≠ Act.logUnexpected c.cmd := by
  refine ⟨?_, by intro s; simp, by simp⟩
  simp [execLoop, h1, h2, h3]

theorem execLoop_unexpected_command_ignored_witness :
    execLoop [] [Event.recv ⟨13, 0, 0, ⟨SvcState.Running, 5⟩, 0⟩] =
      (Act.logUnexpected 13 :: (execLoop [] []).1, (execLoop [] []).2) ∧
    Act.sendStatus ⟨SvcState.Running, 5⟩ ≠ Act.logUnexpected 13 ∧
    Act.cancel ≠ Act.logUnexpected 13 :=
  have h := execLoop_unexpected_command_ignored []
    ⟨13, 0, 0, ⟨SvcState.Running, 5⟩, 0⟩ [] (by decide) (by decide) (by decide)
  ⟨h.1, h.2.1 ⟨SvcState.Running, 5⟩, h.2.2⟩

/-- In the command loop, as long as only non-terminating events (Interrogate
or unexpected commands) precede it, a received Stop/Shutdown request ends
the loop with the test-output log, `cancel()` and `wg.Wait()` as the last
three actions, and the break flag set. -/
theorem execLoop_stop_tail (args : List String) (c : ChangeRequest)
    (post : List Event) (hc : c.cmd = Cmd.Stop ∨ c.cmd = Cmd.Shutdown) :
    ∀ front : List Event, (∀ e ∈ front, terminates e = false) →
      ∃ mid, execLoop args (front ++ Event.recv c :: post) =
        (mid ++ [Act.logTestOutput args c.context, Act.cancel, Act.wgWait],
         true) := by
  intro front
  induction front with
  | nil =>
    intro _
    refine ⟨[], ?_⟩
    have h4 : ¬ c.cmd = Cmd.Interrogate := by
      rcases hc with h | h <;>
        simp [h, Cmd.Stop, Cmd.Shutdown, Cmd.Interrogate]
    simp [execLoop, h4, hc]
  | cons e front ih =>
    intro hf
    have he : terminates e = false := hf e (by simp)
    have hrest : ∀ e2 ∈ front, terminates e2 = false := by
      intro e2 h2
      exact hf e2 (by simp [h2])
    obtain ⟨mid, hm⟩ := ih hrest
    cases e with
    | ctxDone => simp [terminates] at he
    | recv c2 =>
      have hns : ¬ c2.cmd = Cmd.Stop ∧ ¬ c2.cmd = Cmd.Shutdown := by
        simpa [terminates] using he
      by_cases hi : c2.cmd = Cmd.Interrogate
      · refine ⟨Act.sendStatus c2.currentStatus :: Act.sleep 100 ::
          Act.sendStatus c2.currentStatus :: mid, ?_⟩
        simp [execLoop, hi, hm]
      · refine ⟨Act.logUnexpected c2.cmd :: mid, ?_⟩
        simp [execLoop, hi, hns.1, hns.2, hm]

/-- Claim C1: in every execution of Execute in which a Stop or Shutdown
change request is received (after any number of non-terminating events),
Execute cancels the user task's context and waits on the task's wait group,
and only after those two actions does it send the StopPending status and
return: the trace ends with cancel, wg.Wait, send StopPending, return. -/
theorem Execute_stop_cancels_and_waits_before_stopPending
    (args : List String) (front : List Event) (c : ChangeRequest)
    (post : List Event) (hf : ∀ e ∈ front, terminates e = false)
    (hc : c.cmd = Cmd.Stop ∨ c.cmd = Cmd.Shutdown) :
    ∃ mid, Execute args none (front ++ Event.recv c :: post) =
      Act.sendStatus ⟨SvcState.StartPending, 0⟩ ::
      Act.sendStatus ⟨SvcState.Running, cmdsAccepted⟩ ::
        (mid ++ [Act.logTestOutput args c.context, Act.cancel, Act.wgWait,
          Act.sendStatus ⟨SvcState.StopPending, 0⟩, Act.ret false 0]) := by
  obtain ⟨mid, hm⟩ := execLoop_stop_tail args c post hc front hf
  refine ⟨mid, ?_⟩
  simp [Execute, hm]

theorem Execute_stop_cancels_and_waits_before_stopPending_witness :
    ∃ mid, Execute ["x"] none
        [Event.recv ⟨4, 0, 0, ⟨SvcState.Running, 5⟩, 0⟩,
         Event.recv ⟨1, 0, 0, ⟨SvcState.Running, 5⟩, 7⟩] =
      Act.sendStatus ⟨SvcState.StartPending, 0⟩ ::
      Act.sendStatus ⟨SvcState.Running, cmdsAccepted⟩ ::
        (mid ++ [Act.logTestOutput ["x"] 7, Act.cancel, Act.wgWait,
          Act.sendStatus ⟨SvcState.StopPending, 0⟩, Act.ret false 0]) :=
  Execute_stop_cancels_and_waits_before_stopPending ["x"]
    [Event.recv ⟨4, 0, 0, ⟨SvcState.Running, 5⟩, 0⟩]
    ⟨1, 0, 0, ⟨SvcState.Running, 5⟩, 7⟩ [] (by decide) (Or.inl rfl)

/-- Claim C2, counterexample: in the execution where the user-supplied
Schedule call fails, Execute returns (the trace ends in `ret` with errno 1)
yet the only status ever sent is StartPending — Running is never sent and
StopPending is not the last status sent before the return, so the claim is
false for this execution of Execute. -/
theorem Execute_status_sequence_cex :
    Execute ["a"] (some "boom") [] =
      [Act.sendStatus ⟨SvcState.StartPending, 0⟩, Act.logScheduleError "boom",
        Act.cancel, Act.wgWait, Act.ret false 1] ∧
    statusesSent (Execute ["a"] (some "boom") []) =
      [⟨SvcState.StartPending, 0⟩] :=
  ⟨rfl, rfl⟩

/-- Claim C2, amended: in every execution of Execute in which the Schedule
call succeeds and the command loop exits (so that Execute returns),
StartPending is the first status sent, Running (accepting stop/shutdown)
is sent second, before any action of the command loop, and StopPending is
the last status sent, followed only by the return. -/
theorem Execute_status_sequence_on_success (args : List String)
    (events : List Event) (h : (execLoop args events).2 = true) :
    Execute args none events =
      Act.sendStatus ⟨SvcState.StartPending, 0⟩ ::
      Act.sendStatus ⟨SvcState.Running, cmdsAccepted⟩ ::
        ((execLoop args events).1 ++
          [Act.sendStatus ⟨SvcState.StopPending, 0⟩, Act.ret false 0]) ∧
    (statusesSent (Execute args none events)).head? =
      some ⟨SvcState.StartPending, 0⟩ ∧
    (statusesSent (Execute args none events)).getLast? =
      some ⟨SvcState.StopPending, 0⟩ ∧
    (Execute args none events).getLast? = some (Act.ret false 0) := by
  have heq : Execute args none events =
      Act.sendStatus ⟨SvcState.StartPending, 0⟩ ::
      Act.sendStatus ⟨SvcState.Running, cmdsAccepted⟩ ::
        ((execLoop args events).1 ++
          [Act.sendStatus ⟨SvcState.StopPending, 0⟩, Act.ret false 0]) := by
    simp [Execute, h]
  refine ⟨heq, ?_, ?_, ?_⟩
  · rw [heq]
    rfl
  · rw [heq]
    have hs : statusesSent (Act.sendStatus ⟨SvcState.StartPending, 0⟩ ::
        Act.sendStatus ⟨SvcState.Running, cmdsAccepted⟩ ::
          ((execLoop args events).1 ++
            [Act.sendStatus ⟨SvcState.StopPending, 0⟩, Act.ret false 0])) =
        ((⟨SvcState.StartPending, 0⟩ : Status) ::
          (⟨SvcState.Running, cmdsAccepted⟩ : Status) ::
          statusesSent (execLoop args events).1) ++
          [⟨SvcState.StopPending, 0⟩] := by
      simp [statusesSent, statusesSent_append]
    rw [hs, List.getLast?_concat]
  · rw [heq]
    have ht : Act.sendStatus ⟨SvcState.StartPending, 0⟩ ::
        Act.sendStatus ⟨SvcState.Running, cmdsAccepted⟩ ::
          ((execLoop args events).1 ++
            [Act.sendStatus ⟨SvcState.StopPending, 0⟩, Act.ret false 0]) =
        (Act.sendStatus ⟨SvcState.StartPending, 0⟩ ::
          Act.sendStatus ⟨SvcState.Running, cmdsAccepted⟩ ::
          ((execLoop args events).1 ++
            [Act.sendStatus ⟨SvcState.StopPending, 0⟩])) ++
          [Act.ret false 0] := by
      simp
    rw [ht, List.getLast?_concat]

theorem Execute_status_sequence_on_success_witness :
    Execute ["w"] none [Event.ctxDone] =
      Act.sendStatus ⟨SvcState.StartPending, 0⟩ ::
      Act.sendStatus ⟨SvcState.Running, cmdsAccepted⟩ ::
        ((execLoop ["w"] [Event.ctxDone]).1 ++
          [Act.sendStatus ⟨SvcState.StopPending, 0⟩, Act.ret false 0]) ∧
    (statusesSent (Execute ["w"] none [Event.ctxDone])).head? =
      some ⟨SvcState.StartPending, 0⟩ ∧
    (statusesSent (Execute ["w"] none [Event.ctxDone])).getLast? =
      some ⟨SvcState.StopPending, 0⟩ ∧
    (Execute ["w"] none [Event.ctxDone]).getLast? = some (Act.ret false 0) :=
  Execute_status_sequence_on_success ["w"] [Event.ctxDone] rfl

/- Part 2: the service-manager operations.  Each OS call is modelled by an
oracle field holding the result the OS would return; each operation
returns its Go result together with the trace of OS calls issued. -/

/-- An error value produced by an OS service-manager call. -/
inductive OSErr where
  | oserr : Nat → OSErr
  deriving DecidableEq

/-- An error returned by one of the wrapper's operations: either the OS
error passed through unchanged (`return err`), an OS error wrapped with
added context (`fmt.Errorf("...: %v", err)`), a message that drops the OS
error, or the poll-loop timeout. -/
inductive Err where
  | os : OSErr → Err
  | wrapped : String → OSErr → Err
  | alreadyExists : Err
  | notInstalled : Err
  | timeout : Err
  deriving DecidableEq

/-- The OS service-manager calls an operation can issue (plus the 300 ms
sleep of the poll loop).  `Close`/`Disconnect` cleanup is not traced. -/
inductive SvcCall where
  | exePath : SvcCall
  | connect : SvcCall
  | openService : SvcCall
  | start : SvcCall
  | create : SvcCall
  | delete : SvcCall
  | control : SvcCall
  | query : SvcCall
  | sleep300 : SvcCall
  | installEventLog : SvcCall
  | removeEventLog : SvcCall
  deriving DecidableEq

/-- Oracle for StartService: results of mgr.Connect, m.OpenService and
s.Start. -/
structure StartOracle where
  connect : Except OSErr Unit
  openService : Except OSErr Unit
  start : Except OSErr Unit

/-- part_000 lines 68-84, `(*ServiceWrapper).StartService`: connect, open
the service, call Start; it does not query the service state afterwards. -/
def StartService (o : StartOracle) : Except Err Unit × List SvcCall :=
  match o.connect with
  | .error e => (.error (.os e), [SvcCall.connect])
  | .ok _ =>
    match o.openService with
    | .error e => (.error (.wrapped "could not access service" e),
        [SvcCall.connect, SvcCall.openService])
    | .ok _ =>
      match o.start with
      | .error e => (.error (.wrapped "could not start service" e),
          [SvcCall.connect, SvcCall.openService, SvcCall.start])
      | .ok _ => (.ok (), [SvcCall.connect, SvcCall.openService, SvcCall.start])

/-- Oracle for ControlService: results of mgr.Connect, m.OpenService and
s.Control (the state the control call reports), and the state reported by
the k-th s.Query of the poll loop. -/
structure ControlOracle where
  connect : Except OSErr Unit
  openService : Except OSErr Unit
  control : Except OSErr SvcState
  query : Nat → Except OSErr SvcState

/-- part_000 lines 97-107: the wait loop of ControlService.  `t` is the
elapsed time in milliseconds (the Go code compares `time.Now()` against a
deadline 10 seconds after the control was sent); each iteration sleeps
300 ms and re-queries.  `k` numbers the queries. -/
def pollLoop (query : Nat → Except OSErr SvcState) (target : SvcState)
    (st : SvcState) (t : Nat) (k : Nat) : Except Err Unit × List SvcCall :=
  if st = target then (.ok (), [])
  else if 10000 < t then (.error .timeout, [])
  else
    match query k with
    | .error e => (.error (.wrapped "could not retrieve service status" e),
        [SvcCall.sleep300, SvcCall.query])
    | .ok st2 =>
      let r := pollLoop query target st2 (t + 300) (k + 1)
      (r.1, SvcCall.sleep300 :: SvcCall.query :: r.2)
termination_by 10001 - t
decreasing_by omega

/-- part_000 lines 86-113, `(*ServiceWrapper).ControlService`: connect,
open, send the control, then poll every 300 ms until the target state
is reached or ten seconds have passed. -/
def ControlService (o : ControlOracle) (c : Cmd) (target : SvcState) :
    Except Err Unit × List SvcCall :=
  match o.connect with
  | .error e => (.error (.os e), [SvcCall.connect])
  | .ok _ =>
    match o.openService with
    | .error e => (.error (.wrapped "could not access service" e),
        [SvcCall.connect, SvcCall.openService])
    | .ok _ =>
      match o.control with
      | .error e => (.error (.wrapped ("could not send control=" ++ toString c) e),
          [SvcCall.connect, SvcCall.openService, SvcCall.control])
      | .ok st =>
        let r := pollLoop o.query target st 0 0
        (r.1, [SvcCall.connect, SvcCall.openService, SvcCall.control] ++ r.2)

/-- Oracle for InstallService: results of sw.ExePath, mgr.Connect,
m.OpenService (ok means a service of that name already exists),
m.CreateService and eventlog.InstallAsEventCreate.  The result of the
rollback s.Delete() is ignored by the source and not modelled. -/
structure InstallOracle where
  exePath : Except OSErr String
  connect : Except OSErr Unit
  openService : Except OSErr Unit
  create : Except OSErr Unit
  installEventLog : Except OSErr Unit

/-- part_001 lines 45-71, `(*ServiceWrapper).InstallService`: resolve the
executable path, connect, fail if the service already exists (open
succeeded), create the service, register the event-log source; if that
registration fails, delete the just-created service and return an error. -/
def InstallService (o : InstallOracle) : Except Err Unit × List SvcCall :=
  match o.exePath with
  | .error e => (.error (.os e), [SvcCall.exePath])
  | .ok _ =>
    match o.connect with
    | .error e => (.error (.os e), [SvcCall.exePath, SvcCall.connect])
    | .ok _ =>
      match o.openService with
      | .ok _ => (.error .alreadyExists,
          [SvcCall.exePath, SvcCall.connect, SvcCall.openService])
      | .error _ =>
        match o.create with
        | .error e => (.error (.os e),
            [SvcCall.exePath, SvcCall.connect, SvcCall.openService,
              SvcCall.create])
        | .ok _ =>
          match o.installEventLog with
          | .error e => (.error (.wrapped "SetupEventLogSource() failed" e),
              [SvcCall.exePath, SvcCall.connect, SvcCall.openService,
                SvcCall.create, SvcCall.installEventLog, SvcCall.delete])
          | .ok _ => (.ok (),
              [SvcCall.exePath, SvcCall.connect, SvcCall.openService,
                SvcCall.create, SvcCall.installEventLog])

/-- Oracle for RemoveService: results of mgr.Connect, m.OpenService,
s.Delete and eventlog.Remove. -/
structure RemoveOracle where
  connect : Except OSErr Unit
  openService : Except OSErr Unit
  delete : Except OSErr Unit
  removeEventLog : Except OSErr Unit

/-- part_001 lines 73-93, `(*ServiceWrapper).RemoveService`: connect, open
(a failed open is reported as "service is not installed", dropping the OS
error), delete the service, remove the event-log source. -/
def RemoveService (o : RemoveOracle) : Except Err Unit × List SvcCall :=
  match o.connect with
  | .error e => (.error (.os e), [SvcCall.connect])
  | .ok _ =>
    match o.openService with
    | .error _ => (.error .notInstalled, [SvcCall.connect, SvcCall.openService])
    | .ok _ =>
      match o.delete with
      | .error e => (.error (.os e),
          [SvcCall.connect, SvcCall.openService, SvcCall.delete])
      | .ok _ =>
        match o.removeEventLog with
        | .error e => (.error (.wrapped "RemoveEventLogSource() failed" e),
            [SvcCall.connect, SvcCall.openService, SvcCall.delete,
              SvcCall.removeEventLog])
        | .ok _ => (.ok (),
            [SvcCall.connect, SvcCall.openService, SvcCall.delete,
              SvcCall.removeEventLog])

/-- What ManageService does after inspecting svc.IsWindowsService and the
command-line arguments: run as a real service, run in debug mode, call one
of the four manager operations, or print the usage text to stderr and
exit. -/
inductive ManageOutcome where
  | detectFailed : OSErr → ManageOutcome
  | runService : Bool → ManageOutcome
  | install : ManageOutcome
  | remove : ManageOutcome
  | startSvc : ManageOutcome
  | controlSvc : Cmd → SvcState → ManageOutcome
  | usageExit : String → Nat → ManageOutcome
  deriving DecidableEq

/-- part_000 lines 20-28, `(*ServiceWrapper).usage`: the text printed to
stderr, built from the error message and os.Args[0]. -/
def usageText (argv0 errmsg : String) : String :=
  errmsg ++ "\n\nusage: " ++ argv0 ++ " <command>\n" ++
    "       where <command> is one of\n" ++
    "       install, remove, debug, start, stop, pause or continue.\n"

/-- The usage helper prints the usage text to stderr and exits with code 2. -/
def usage (argv0 errmsg : String) : ManageOutcome :=
  ManageOutcome.usageExit (usageText argv0 errmsg) 2

/-- strings.ToLower as the source applies it to the command verb,
modelled per character (the verbs are ASCII). -/
def strToLower (s : String) : String := ⟨s.data.map Char.toLower⟩

/-- part_000 lines 30-66, `(*ServiceWrapper).ManageService`.  `inSvc` is
the result of svc.IsWindowsService, `argv` is os.Args (never empty in Go;
its head is the program name).  The first argument, lower-cased, selects
the operation; anything else reaches `usage`, which exits with code 2. -/
def ManageService (inSvc : Except OSErr Bool) (argv : List String) :
    ManageOutcome :=
  match inSvc with
  | .error e => ManageOutcome.detectFailed e
  | .ok true => ManageOutcome.runService false
  | .ok false =>
    match argv with
    | [] => usage "" "no command specified"
    | [a0] => usage a0 "no command specified"
    | a0 :: a1 :: _ =>
      match strToLower a1 with
      | "debug" => ManageOutcome.runService true
      | "install" => ManageOutcome.install
      | "remove" => ManageOutcome.remove
      | "start" => ManageOutcome.startSvc
      | "stop" => ManageOutcome.controlSvc Cmd.Stop SvcState.Stopped
      | "pause" => ManageOutcome.controlSvc Cmd.Pause SvcState.Paused
      | "continue" => ManageOutcome.controlSvc Cmd.Continue SvcState.Running
      | other => usage a0 ("invalid command " ++ other)

/-- The shape of the poll loop's trace: n iterations, each a 300 ms sleep
followed by one Query. -/
def sleepQueryChunks : Nat → List SvcCall
  | 0 => []
  | n + 1 => SvcCall.sleep300 :: SvcCall.query :: sleepQueryChunks n

theorem sleepQueryChunks_mem (n : Nat) :
    ∀ x ∈ sleepQueryChunks n, x = SvcCall.sleep300 ∨ x = SvcCall.query := by
  induction n with
  | zero =>
    intro x hx
    simp [sleepQueryChunks] at hx
  | succ n ih =>
    intro x hx
    simp [sleepQueryChunks] at hx
    rcases hx with h | h | h
    · exact Or.inl h
    · exact Or.inr h
    · exact ih x h

/-- Behaviour of the ControlService wait loop: its trace is a sequence of
sleep-then-query iterations; starting the clock at `t`, at most
(10300 - t) / 300 iterations run; a timeout is only reported once more
than 10 seconds have elapsed; and a nil return means the target state was
observed (by the control reply itself or by one of the queries). -/
theorem pollLoop_spec (q : Nat → Except OSErr SvcState) (target : SvcState) :
    ∀ (fuel t st k : Nat), 10001 - t ≤ fuel →
      ∃ n, (pollLoop q target st t k).2 = sleepQueryChunks n ∧
        n ≤ (10300 - t) / 300 ∧
        ((pollLoop q target st t k).1 = Except.error Err.timeout →
          10000 < t + 300 * n) ∧
        ((pollLoop q target st t k).1 = Except.ok () →
          st = target ∨ ∃ j, k ≤ j ∧ j < k + n ∧ q j = Except.ok target) := by
  intro fuel
  induction fuel with
  | zero =>
    intro t st k hf
    have ht : 10000 < t := by omega
    by_cases h1 : st = target
    · have heq : pollLoop q target st t k = (Except.ok (), []) := by
        rw [pollLoop]
        simp [h1]
      refine ⟨0, by rw [heq]; rfl, Nat.zero_le _, by rw [heq]; simp,
        fun _ => Or.inl h1⟩
    · have heq : pollLoop q target st t k = (Except.error Err.timeout, []) := by
        rw [pollLoop]
        simp [h1, ht]
      refine ⟨0, by rw [heq]; rfl, Nat.zero_le _, by rw [heq]; intro; omega,
        by rw [heq]; simp⟩
  | succ fuel ih =>
    intro t st k hf
    by_cases h1 : st = target
    · have heq : pollLoop q target st t k = (Except.ok (), []) := by
        rw [pollLoop]
        simp [h1]
      refine ⟨0, by rw [heq]; rfl, Nat.zero_le _, by rw [heq]; simp,
        fun _ => Or.inl h1⟩
    · by_cases h2 : 10000 < t
      · have heq : pollLoop q target st t k = (Except.error Err.timeout, []) := by
          rw [pollLoop]
          simp [h1, h2]
        refine ⟨0, by rw [heq]; rfl, Nat.zero_le _, by rw [heq]; intro; omega,
          by rw [heq]; simp⟩
      · cases hq : q k with
        | error e =>
          have heq : pollLoop q target st t k =
              (Except.error (Err.wrapped "could not retrieve service status" e),
               [SvcCall.sleep300, SvcCall.query]) := by
            rw [pollLoop]
            simp [h1, h2, hq]
          refine ⟨1, by rw [heq]; rfl, ?_, by rw [heq]; simp, by rw [heq]; simp⟩
          have h300 : 300 ≤ 10300 - t := by omega
          exact (Nat.le_div_iff_mul_le (by norm_num)).mpr (by omega)
        | ok st2 =>
          obtain ⟨n, hn1, hn2, hn3, hn4⟩ := ih (t + 300) st2 (k + 1) (by omega)
          have heq : pollLoop q target st t k =
              ((pollLoop q target st2 (t + 300) (k + 1)).1,
               SvcCall.sleep300 :: SvcCall.query ::
                 (pollLoop q target st2 (t + 300) (k + 1)).2) := by
            rw [pollLoop]
            simp [h1, h2, hq]
          refine ⟨n + 1, ?_, ?_, ?_, ?_⟩
          · rw [heq]
            simp [sleepQueryChunks, hn1]
          · have hdiv : (10300 - t) / 300 = (10000 - t) / 300 + 1 := by
              rw [show 10300 - t = (10000 - t) + 300 by omega]
              exact Nat.add_div_right _ (by norm_num)
            have h10 : 10300 - (t + 300) = 10000 - t := by omega
            rw [h10] at hn2
            omega
          · rw [heq]
            intro hres
            have := hn3 hres
            omega
          · rw [heq]
            intro hres
            rcases hn4 hres with h | ⟨j, hj1, hj2, hj3⟩
            · refine Or.inr ⟨k, le_refl k, by omega, ?_⟩
              rw [hq, h]
            · exact Or.inr ⟨j, by omega, by omega, hj3⟩

/-- Claim C3, counterexample: StartService (the `start` verb) performs no
polling at all — its trace holds no Query and no sleep.  Even when every
OS call succeeds, it returns nil immediately after s.Start without ever
re-querying the service state, so the claimed 300 ms / 10 s wait loop does
not exist for the `start` command. -/
theorem StartService_no_polling_cex :
    (StartService ⟨Except.ok (), Except.ok (), Except.ok ()⟩).1 =
      Except.ok () ∧
    (StartService ⟨Except.ok (), Except.ok (), Except.ok ()⟩).2 =
      [SvcCall.connect, SvcCall.openService, SvcCall.start] ∧
    SvcCall.query ∉
      (StartService ⟨Except.ok (), Except.ok (), Except.ok ()⟩).2 ∧
    SvcCall.sleep300 ∉
      (StartService ⟨Except.ok (), Except.ok (), Except.ok ()⟩).2 :=
  ⟨rfl, rfl, by decide, by decide⟩

/-- Claim C3, amended: only stop, pause and continue (the ControlService
path) await the state transition with the polling loop: after the control
is sent, the state is re-queried after a 300 ms sleep each round, at most
34 rounds run, a timeout error is reported exactly when all 34 rounds
elapse (more than 10 seconds) without the target state, and a nil return
means the target state was observed.  StartService issues the start
request without any query or sleep. -/
theorem ControlService_polls_StartService_does_not
    (o : ControlOracle) (c : Cmd) (target st : SvcState) (oS : StartOracle)
    (h1 : o.connect = Except.ok ()) (h2 : o.openService = Except.ok ())
    (h3 : o.control = Except.ok st) :
    (∃ n, n ≤ 34 ∧
      (ControlService o c target).2 =
        [SvcCall.connect, SvcCall.openService, SvcCall.control] ++
          sleepQueryChunks n ∧
      ((ControlService o c target).1 = Except.error Err.timeout → n = 34) ∧
      ((ControlService o c target).1 = Except.ok () →
        st = target ∨ ∃ j, j < n ∧ o.query j = Except.ok target)) ∧
    SvcCall.query ∉ (StartService oS).2 ∧
    SvcCall.sleep300 ∉ (StartService oS).2 := by
  have hC : ControlService o c target =
      ((pollLoop o.query target st 0 0).1,
       [SvcCall.connect, SvcCall.openService, SvcCall.control] ++
         (pollLoop o.query target st 0 0).2) := by
    simp [ControlService, h1, h2, h3]
  obtain ⟨n, hn1, hn2, hn3, hn4⟩ :=
    pollLoop_spec o.query target 10001 0 st 0 (by omega)
  have hstart : SvcCall.query ∉ (StartService oS).2 ∧
      SvcCall.sleep300 ∉ (StartService oS).2 := by
    obtain ⟨a, b, d⟩ := oS
    cases a <;> cases b <;> cases d <;> simp [StartService]
  refine ⟨⟨n, by omega, ?_, ?_, ?_⟩, hstart.1, hstart.2⟩
  · rw [hC]
    simp [hn1]
  · rw [hC]
    intro hres
    have := hn3 hres
    omega
  · rw [hC]
    intro hres
    rcases hn4 hres with h | ⟨j, _, hj2, hj3⟩
    · exact Or.inl h
    · exact Or.inr ⟨j, by omega, hj3⟩

theorem ControlService_polls_StartService_does_not_witness :
    (∃ n, n ≤ 34 ∧
      (ControlService ⟨Except.ok (), Except.ok (), Except.ok 4,
          fun _ => Except.ok 4⟩ Cmd.Continue 4).2 =
        [SvcCall.connect, SvcCall.openService, SvcCall.control] ++
          sleepQueryChunks n ∧
      ((ControlService ⟨Except.ok (), Except.ok (), Except.ok 4,
          fun _ => Except.ok 4⟩ Cmd.Continue 4).1 =
            Except.error Err.timeout → n = 34) ∧
      ((ControlService ⟨Except.ok (), Except.ok (), Except.ok 4,
          fun _ => Except.ok 4⟩ Cmd.Continue 4).1 = Except.ok () →
        (4 : SvcState) = 4 ∨ ∃ j, j < n ∧
          (fun _ : Nat => Except.ok (ε := OSErr) (4 : SvcState)) j =
            Except.ok 4)) ∧
    SvcCall.query ∉
      (StartService ⟨Except.ok (), Except.ok (), Except.ok ()⟩).2 ∧
    SvcCall.sleep300 ∉
      (StartService ⟨Except.ok (), Except.ok (), Except.ok ()⟩).2 :=
  ControlService_polls_StartService_does_not
    ⟨Except.ok (), Except.ok (), Except.ok 4, fun _ => Except.ok 4⟩
    Cmd.Continue 4 4 ⟨Except.ok (), Except.ok (), Except.ok ()⟩ rfl rfl rfl

/-- Claim C4, counterexample: the Running status Execute reports accepts
only Stop and Shutdown — the AcceptPauseAndContinue bit is absent from
cmdsAccepted (the source comments it out) — and a received Pause (2) or
Continue (3) command falls into the default branch of the command loop,
logged as an unexpected control request. -/
theorem Execute_pause_continue_unexpected_cex :
    cmdsAccepted &&& AcceptPauseAndContinue = 0 ∧
    execLoop [] [Event.recv ⟨2, 0, 0, ⟨SvcState.Running, 5⟩, 0⟩] =
      ([Act.logUnexpected 2], false) ∧
    execLoop [] [Event.recv ⟨3, 0, 0, ⟨SvcState.Running, 5⟩, 0⟩] =
      ([Act.logUnexpected 3], false) :=
  ⟨by decide, by decide, by decide⟩

/-- Claim C4, amended: pause and continue exist only as CLI verbs —
ManageService dispatches them to ControlService — while the service itself
does not support them: the Running status sent by Execute does not
advertise AcceptPauseAndContinue, and a Pause or Continue change request
received by the command loop is treated as an unexpected control request
(only logged, the loop continuing as on the remaining events). -/
theorem pause_continue_cli_only (a0 : String) (rest : List String)
    (args : List String) (c : ChangeRequest) (evs : List Event)
    (h : c.cmd = Cmd.Pause ∨ c.cmd = Cmd.Continue) :
    ManageService (Except.ok false) (a0 :: "pause" :: rest) =
      ManageOutcome.controlSvc Cmd.Pause SvcState.Paused ∧
    ManageService (Except.ok false) (a0 :: "continue" :: rest) =
      ManageOutcome.controlSvc Cmd.Continue SvcState.Running ∧
    cmdsAccepted &&& AcceptPauseAndContinue = 0 ∧
    execLoop args (Event.recv c :: evs) =
      (Act.logUnexpected c.cmd :: (execLoop args evs).1,
       (execLoop args evs).2) := by
  have h4 : ¬ c.cmd = Cmd.Interrogate := by
    rcases h with h | h <;> simp [h, Cmd.Pause, Cmd.Continue, Cmd.Interrogate]
  have h1 : ¬ c.cmd = Cmd.Stop := by
    rcases h with h | h <;> simp [h, Cmd.Pause, Cmd.Continue, Cmd.Stop]
  have h5 : ¬ c.cmd = Cmd.Shutdown := by
    rcases h with h | h <;> simp [h, Cmd.Pause, Cmd.Continue, Cmd.Shutdown]
  have hp : strToLower "pause" = "pause" := by decide
  have hcont : strToLower "continue" = "continue" := by decide
  refine ⟨by simp [ManageService, hp], by simp [ManageService, hcont],
    by decide, ?_⟩
  simp [execLoop, h4, h1, h5]

theorem pause_continue_cli_only_witness :
    ManageService (Except.ok false) ["svc.exe", "pause"] =
      ManageOutcome.controlSvc Cmd.Pause SvcState.Paused ∧
    ManageService (Except.ok false) ["svc.exe", "continue"] =
      ManageOutcome.controlSvc Cmd.Continue SvcState.Running ∧
    cmdsAccepted &&& AcceptPauseAndContinue = 0 ∧
    execLoop [] [Event.recv ⟨2, 0, 0, ⟨SvcState.Running, 5⟩, 0⟩] =
      (Act.logUnexpected 2 :: (execLoop [] []).1, (execLoop [] []).2) :=
  pause_continue_cli_only "svc.exe" [] [] ⟨2, 0, 0, ⟨SvcState.Running, 5⟩, 0⟩ []
    (Or.inl rfl)

/-- Claim C5: outside a Windows service, ManageService dispatches exactly
the seven CLI verbs — debug, install, remove, start, stop, pause,
continue — matched case-insensitively (via strings.ToLower) on the first
argument; with no argument, or any other first argument, it reaches
`usage`, which prints a usage message to stderr and exits with code 2. -/
theorem ManageService_dispatch_seven_verbs (a0 a1 : String)
    (rest : List String) :
    ManageService (Except.ok false) [] = usage "" "no command specified" ∧
    ManageService (Except.ok false) [a0] = usage a0 "no command specified" ∧
    ManageService (Except.ok false) (a0 :: a1 :: rest) =
      (if strToLower a1 = "debug" then ManageOutcome.runService true
       else if strToLower a1 = "install" then ManageOutcome.install
       else if strToLower a1 = "remove" then ManageOutcome.remove
       else if strToLower a1 = "start" then ManageOutcome.startSvc
       else if strToLower a1 = "stop" then
         ManageOutcome.controlSvc Cmd.Stop SvcState.Stopped
       else if strToLower a1 = "pause" then
         ManageOutcome.controlSvc Cmd.Pause SvcState.Paused
       else if strToLower a1 = "continue" then
         ManageOutcome.controlSvc Cmd.Continue SvcState.Running
       else usage a0 ("invalid command " ++ strToLower a1)) ∧
    usage a0 ("invalid command " ++ strToLower a1) =
      ManageOutcome.usageExit
        (usageText a0 ("invalid command " ++ strToLower a1)) 2 := by
  refine ⟨rfl, rfl, ?_, rfl⟩
  simp only [ManageService]
  generalize strToLower a1 = s
  split <;> simp_all

theorem count_sleepQueryChunks (x : SvcCall) (n : Nat)
    (h1 : x ≠ SvcCall.sleep300) (h2 : x ≠ SvcCall.query) :
    (sleepQueryChunks n).count x = 0 := by
  refine List.count_eq_zero.mpr ?_
  intro hmem
  rcases sleepQueryChunks_mem n x hmem with h | h
  · exact h1 h
  · exact h2 h

/-- Claim C7, counterexample: two concrete refutations.  First, in
InstallService the OpenService call fails (the service does not exist) yet
the operation returns nil — a failing underlying call does not imply an
error return.  Second, a failing mgr.Connect in StartService is returned
exactly as the OS error, with no added context. -/
theorem error_passthrough_cex :
    (InstallService ⟨Except.ok "p", Except.ok (), Except.error (OSErr.oserr 3),
        Except.ok (), Except.ok ()⟩).1 = Except.ok () ∧
    (StartService ⟨Except.error (OSErr.oserr 7), Except.ok (),
        Except.ok ()⟩).1 = Except.error (Err.os (OSErr.oserr 7)) :=
  ⟨rfl, rfl⟩

theorem startService_ok_iff (sc so ss : Except OSErr Unit) :
    (StartService ⟨sc, so, ss⟩).1 = Except.ok () ↔
      sc = Except.ok () ∧ so = Except.ok () ∧ ss = Except.ok () := by
  cases sc <;> cases so <;> cases ss <;> simp [StartService]

theorem startService_connect_error (oS : StartOracle) (e : OSErr)
    (h : oS.connect = Except.error e) :
    (StartService oS).1 = Except.error (Err.os e) := by
  obtain ⟨sc, so, ss⟩ := oS
  simp only at h
  subst h
  simp [StartService]

theorem startService_open_error (oS : StartOracle) (e : OSErr)
    (hc : oS.connect = Except.ok ()) (ho : oS.openService = Except.error e) :
    (StartService oS).1 =
      Except.error (Err.wrapped "could not access service" e) := by
  obtain ⟨sc, so, ss⟩ := oS
  simp only at hc ho
  subst hc
  subst ho
  simp [StartService]

theorem startService_trace_nodup (sc so ss : Except OSErr Unit) :
    (StartService ⟨sc, so, ss⟩).2.Nodup := by
  cases sc <;> cases so <;> cases ss <;>
    simp [StartService, List.nodup_cons]

theorem removeService_ok_iff (rc ro rd rrem : Except OSErr Unit) :
    (RemoveService ⟨rc, ro, rd, rrem⟩).1 = Except.ok () ↔
      rc = Except.ok () ∧ ro = Except.ok () ∧ rd = Except.ok () ∧
        rrem = Except.ok () := by
  cases rc <;> cases ro <;> cases rd <;> cases rrem <;>
    simp [RemoveService]

theorem removeService_open_error (oR : RemoveOracle) (e : OSErr)
    (hc : oR.connect = Except.ok ()) (ho : oR.openService = Except.error e) :
    (RemoveService oR).1 = Except.error Err.notInstalled := by
  obtain ⟨rc, ro, rd, rrem⟩ := oR
  simp only at hc ho
  subst hc
  subst ho
  simp [RemoveService]

theorem removeService_trace_nodup (rc ro rd rrem : Except OSErr Unit) :
    (RemoveService ⟨rc, ro, rd, rrem⟩).2.Nodup := by
  cases rc <;> cases ro <;> cases rd <;> cases rrem <;>
    simp [RemoveService, List.nodup_cons]

theorem installService_ok_iff (ip : Except OSErr String)
    (ic io icr iev : Except OSErr Unit) :
    (InstallService ⟨ip, ic, io, icr, iev⟩).1 = Except.ok () ↔
      (∃ p, ip = Except.ok p) ∧ ic = Except.ok () ∧
        (∃ e, io = Except.error e) ∧ icr = Except.ok () ∧
        iev = Except.ok () := by
  cases ip <;> cases ic <;> cases io <;> cases icr <;> cases iev <;>
    simp [InstallService]

theorem installService_trace_nodup (ip : Except OSErr String)
    (ic io icr iev : Except OSErr Unit) :
    (InstallService ⟨ip, ic, io, icr, iev⟩).2.Nodup := by
  cases ip <;> cases ic <;> cases io <;> cases icr <;> cases iev <;>
    simp [InstallService, List.nodup_cons]

theorem controlService_ok_implies (oC : ControlOracle) (c : Cmd)
    (target : SvcState) :
    (ControlService oC c target).1 = Except.ok () →
      oC.connect = Except.ok () ∧ oC.openService = Except.ok () ∧
        ∃ st, oC.control = Except.ok st := by
  obtain ⟨cc, co, cctl, cq⟩ := oC
  intro h
  cases cc with
  | error e => simp [ControlService] at h
  | ok u =>
    cases u
    cases co with
    | error e => simp [ControlService] at h
    | ok v =>
      cases v
      cases cctl with
      | error e => simp [ControlService] at h
      | ok st => exact ⟨rfl, rfl, ⟨st, rfl⟩⟩

theorem controlService_calls_once (oC : ControlOracle) (c : Cmd)
    (target : SvcState) :
    (ControlService oC c target).2.count SvcCall.connect ≤ 1 ∧
      (ControlService oC c target).2.count SvcCall.openService ≤ 1 ∧
      (ControlService oC c target).2.count SvcCall.control ≤ 1 := by
  obtain ⟨cc, co, cctl, cq⟩ := oC
  cases cc with
  | error e =>
    refine ⟨?_, ?_, ?_⟩ <;> simp [ControlService, List.count_cons]
  | ok u =>
    cases co with
    | error e =>
      refine ⟨?_, ?_, ?_⟩ <;> simp [ControlService, List.count_cons]
    | ok v =>
      cases cctl with
      | error e =>
        refine ⟨?_, ?_, ?_⟩ <;> simp [ControlService, List.count_cons]
      | ok st =>
        cases u
        cases v
        obtain ⟨n, hn1, _, _, _⟩ :=
          pollLoop_spec cq target 10001 0 st 0 (by omega)
        refine ⟨?_, ?_, ?_⟩ <;>
          simp [ControlService, hn1, List.count_cons,
            count_sleepQueryChunks]

theorem pollLoop_query_error_stops (cq : Nat → Except OSErr SvcState)
    (target st t k : Nat) (e : OSErr) (hst : ¬ st = target)
    (ht : ¬ 10000 < t) (hq : cq k = Except.error e) :
    pollLoop cq target st t k =
      (Except.error (Err.wrapped "could not retrieve service status" e),
       [SvcCall.sleep300, SvcCall.query]) := by
  rw [pollLoop]
  simp [hst, ht, hq]

theorem startService_start_error (oS : StartOracle) (e : OSErr)
    (hc : oS.connect = Except.ok ()) (ho : oS.openService = Except.ok ())
    (hs : oS.start = Except.error e) :
    (StartService oS).1 =
      Except.error (Err.wrapped "could not start service" e) := by
  obtain ⟨sc, so, ss⟩ := oS
  simp only at hc ho hs
  subst hc
  subst ho
  subst hs
  simp [StartService]

theorem controlService_connect_error (oC : ControlOracle) (c : Cmd)
    (target : SvcState) (e : OSErr) (h : oC.connect = Except.error e) :
    (ControlService oC c target).1 = Except.error (Err.os e) := by
  obtain ⟨cc, co, cctl, cq⟩ := oC
  simp only at h
  subst h
  simp [ControlService]

theorem controlService_open_error (oC : ControlOracle) (c : Cmd)
    (target : SvcState) (e : OSErr) (hc : oC.connect = Except.ok ())
    (ho : oC.openService = Except.error e) :
    (ControlService oC c target).1 =
      Except.error (Err.wrapped "could not access service" e) := by
  obtain ⟨cc, co, cctl, cq⟩ := oC
  simp only at hc ho
  subst hc
  subst ho
  simp [ControlService]

theorem controlService_control_error (oC : ControlOracle) (c : Cmd)
    (target : SvcState) (e : OSErr) (hc : oC.connect = Except.ok ())
    (ho : oC.openService = Except.ok ())
    (hctl : oC.control = Except.error e) :
    (ControlService oC c target).1 =
      Except.error (Err.wrapped ("could not send control=" ++ toString c) e) := by
  obtain ⟨cc, co, cctl, cq⟩ := oC
  simp only at hc ho hctl
  subst hc
  subst ho
  subst hctl
  simp [ControlService]

theorem installService_connect_error (oI : InstallOracle) (p : String)
    (e : OSErr) (hp : oI.exePath = Except.ok p)
    (hc : oI.connect = Except.error e) :
    (InstallService oI).1 = Except.error (Err.os e) := by
  obtain ⟨ip, ic, io, icr, iev⟩ := oI
  simp only at hp hc
  subst hp
  subst hc
  simp [InstallService]

theorem installService_create_error (oI : InstallOracle) (p : String)
    (e0 e : OSErr) (hp : oI.exePath = Except.ok p)
    (hc : oI.connect = Except.ok ())
    (ho : oI.openService = Except.error e0)
    (hcr : oI.create = Except.error e) :
    (InstallService oI).1 = Except.error (Err.os e) := by
  obtain ⟨ip, ic, io, icr, iev⟩ := oI
  simp only at hp hc ho hcr
  subst hp
  subst hc
  subst ho
  subst hcr
  simp [InstallService]

theorem removeService_connect_error (oR : RemoveOracle) (e : OSErr)
    (h : oR.connect = Except.error e) :
    (RemoveService oR).1 = Except.error (Err.os e) := by
  obtain ⟨rc, ro, rd, rrem⟩ := oR
  simp only at h
  subst h
  simp [RemoveService]

theorem removeService_delete_error (oR : RemoveOracle) (e : OSErr)
    (hc : oR.connect = Except.ok ()) (ho : oR.openService = Except.ok ())
    (hd : oR.delete = Except.error e) :
    (RemoveService oR).1 = Except.error (Err.os e) := by
  obtain ⟨rc, ro, rd, rrem⟩ := oR
  simp only at hc ho hd
  subst hc
  subst ho
  subst hd
  simp [RemoveService]


/-- Claim C7, amended: each operation returns nil exactly when the calls it
makes succeed — except that InstallService requires its initial OpenService
probe to FAIL (a successful open means the service already exists and is an
error).  A failing call is never retried: the traces of Start/Install/
Remove hold no duplicate call, ControlService issues connect/open/control
at most once, and a failing Query ends the poll loop at once.  Open (in
Start and Control), start, control and query failures are wrapped with
added context; mgr.Connect failures in all four operations, CreateService
failures in Install and Delete failures in Remove are returned unchanged;
and RemoveService replaces an open failure by a "not installed" message
that drops the OS error. -/
theorem error_passthrough_amended (oS : StartOracle) (oC : ControlOracle)
    (oI : InstallOracle) (oR : RemoveOracle) (c : Cmd) (target : SvcState) :
    ((StartService oS).1 = Except.ok () ↔
      oS.connect = Except.ok () ∧ oS.openService = Except.ok () ∧
        oS.start = Except.ok ()) ∧
    (∀ e, oS.connect = Except.error e →
      (StartService oS).1 = Except.error (Err.os e)) ∧
    (∀ e, oS.connect = Except.ok () → oS.openService = Except.error e →
      (StartService oS).1 =
        Except.error (Err.wrapped "could not access service" e)) ∧
    (StartService oS).2.Nodup ∧
    ((RemoveService oR).1 = Except.ok () ↔
      oR.connect = Except.ok () ∧ oR.openService = Except.ok () ∧
        oR.delete = Except.ok () ∧ oR.removeEventLog = Except.ok ()) ∧
    (∀ e, oR.connect = Except.ok () → oR.openService = Except.error e →
      (RemoveService oR).1 = Except.error Err.notInstalled) ∧
    (RemoveService oR).2.Nodup ∧
    ((InstallService oI).1 = Except.ok () ↔
      (∃ p, oI.exePath = Except.ok p) ∧ oI.connect = Except.ok () ∧
        (∃ e, oI.openService = Except.error e) ∧ oI.create = Except.ok () ∧
        oI.installEventLog = Except.ok ()) ∧
    (InstallService oI).2.Nodup ∧
    ((ControlService oC c target).1 = Except.ok () →
      oC.connect = Except.ok () ∧ oC.openService = Except.ok () ∧
        ∃ st, oC.control = Except.ok st) ∧
    ((ControlService oC c target).2.count SvcCall.connect ≤ 1 ∧
      (ControlService oC c target).2.count SvcCall.openService ≤ 1 ∧
      (ControlService oC c target).2.count SvcCall.control ≤ 1) ∧
    (∀ st t k e, ¬ st = target → ¬ 10000 < t →
      oC.query k = Except.error e →
      pollLoop oC.query target st t k =
        (Except.error (Err.wrapped "could not retrieve service status" e),
         [SvcCall.sleep300, SvcCall.query])) ∧
    (∀ e, oS.connect = Except.ok () → oS.openService = Except.ok () →
      oS.start = Except.error e →
      (StartService oS).1 =
        Except.error (Err.wrapped "could not start service" e)) ∧
    (∀ e, oC.connect = Except.error e →
      (ControlService oC c target).1 = Except.error (Err.os e)) ∧
    (∀ e, oC.connect = Except.ok () → oC.openService = Except.error e →
      (ControlService oC c target).1 =
        Except.error (Err.wrapped "could not access service" e)) ∧
    (∀ e, oC.connect = Except.ok () → oC.openService = Except.ok () →
      oC.control = Except.error e →
      (ControlService oC c target).1 =
        Except.error
          (Err.wrapped ("could not send control=" ++ toString c) e)) ∧
    (∀ p e, oI.exePath = Except.ok p → oI.connect = Except.error e →
      (InstallService oI).1 = Except.error (Err.os e)) ∧
    (∀ p e0 e, oI.exePath = Except.ok p → oI.connect = Except.ok () →
      oI.openService = Except.error e0 → oI.create = Except.error e →
      (InstallService oI).1 = Except.error (Err.os e)) ∧
    (∀ e, oR.connect = Except.error e →
      (RemoveService oR).1 = Except.error (Err.os e)) ∧
    (∀ e, oR.connect = Except.ok () → oR.openService = Except.ok () →
      oR.delete = Except.error e →
      (RemoveService oR).1 = Except.error (Err.os e)) := by
  obtain ⟨sc, so, ss⟩ := oS
  obtain ⟨rc, ro, rd, rrem⟩ := oR
  obtain ⟨ip, ic, io, icr, iev⟩ := oI
  exact ⟨startService_ok_iff sc so ss,
    fun e he => startService_connect_error ⟨sc, so, ss⟩ e he,
    fun e hc ho => startService_open_error ⟨sc, so, ss⟩ e hc ho,
    startService_trace_nodup sc so ss,
    removeService_ok_iff rc ro rd rrem,
    fun e hc ho => removeService_open_error ⟨rc, ro, rd, rrem⟩ e hc ho,
    removeService_trace_nodup rc ro rd rrem,
    installService_ok_iff ip ic io icr iev,
    installService_trace_nodup ip ic io icr iev,
    controlService_ok_implies oC c target,
    controlService_calls_once oC c target,
    fun st t k e hst ht hq =>
      pollLoop_query_error_stops oC.query target st t k e hst ht hq,
    fun e hc ho hs => startService_start_error ⟨sc, so, ss⟩ e hc ho hs,
    fun e h => controlService_connect_error oC c target e h,
    fun e hc ho => controlService_open_error oC c target e hc ho,
    fun e hc ho hctl => controlService_control_error oC c target e hc ho hctl,
    fun p e hp hc => installService_connect_error ⟨ip, ic, io, icr, iev⟩ p e hp hc,
    fun p e0 e hp hc ho hcr =>
      installService_create_error ⟨ip, ic, io, icr, iev⟩ p e0 e hp hc ho hcr,
    fun e h => removeService_connect_error ⟨rc, ro, rd, rrem⟩ e h,
    fun e hc ho hd => removeService_delete_error ⟨rc, ro, rd, rrem⟩ e hc ho hd⟩

theorem error_passthrough_amended_witness :
    (StartService ⟨Except.ok (), Except.ok (), Except.ok ()⟩).1 =
      Except.ok () ∧
    (InstallService ⟨Except.ok "p", Except.ok (),
        Except.error (OSErr.oserr 1), Except.ok (), Except.ok ()⟩).1 =
      Except.ok () :=
  have h := error_passthrough_amended
    ⟨Except.ok (), Except.ok (), Except.ok ()⟩
    ⟨Except.ok (), Except.ok (), Except.ok 4, fun _ => Except.ok 4⟩
    ⟨Except.ok "p", Except.ok (), Except.error (OSErr.oserr 1), Except.ok (),
      Except.ok ()⟩
    ⟨Except.ok (), Except.ok (), Except.ok (), Except.ok ()⟩ Cmd.Stop 1
  ⟨h.1.mpr ⟨rfl, rfl, rfl⟩,
    h.2.2.2.2.2.2.2.1.mpr ⟨⟨"p", rfl⟩, rfl, ⟨OSErr.oserr 1, rfl⟩, rfl, rfl⟩⟩

/-- Claim C8: InstallService is atomic on its failure paths.  If the
OpenService probe succeeds — a service of that name already exists — the
operation returns an error and its trace holds no CreateService call.  If
the service was created and registering the event-log source fails, the
trace ends with a Delete of the just-created service, issued before the
error return. -/
theorem InstallService_atomic_on_eventlog_failure (o o2 : InstallOracle)
    (p : String) (e0 e : OSErr)
    (h1 : o2.exePath = Except.ok p) (h2 : o2.connect = Except.ok ())
    (h3 : o2.openService = Except.error e0) (h4 : o2.create = Except.ok ())
    (h5 : o2.installEventLog = Except.error e) :
    (o.openService = Except.ok () →
      (∃ err, (InstallService o).1 = Except.error err) ∧
      SvcCall.create ∉ (InstallService o).2) ∧
    (InstallService o2).1 =
      Except.error (Err.wrapped "SetupEventLogSource() failed" e) ∧
    (InstallService o2).2 =
      [SvcCall.exePath, SvcCall.connect, SvcCall.openService, SvcCall.create,
        SvcCall.installEventLog, SvcCall.delete] := by
  have hpart1 : o.openService = Except.ok () →
      (∃ err, (InstallService o).1 = Except.error err) ∧
      SvcCall.create ∉ (InstallService o).2 := by
    obtain ⟨ip, ic, io, icr, iev⟩ := o
    intro hio
    simp only at hio
    subst hio
    cases ip <;> cases ic <;> cases icr <;> cases iev <;>
      simp [InstallService]
  refine ⟨hpart1, ?_, ?_⟩ <;> simp [InstallService, h1, h2, h3, h4, h5]

theorem InstallService_atomic_on_eventlog_failure_witness :
    (∃ err, (InstallService ⟨Except.ok "p", Except.ok (), Except.ok (),
        Except.ok (), Except.ok ()⟩).1 = Except.error err) ∧
    SvcCall.create ∉ (InstallService ⟨Except.ok "p", Except.ok (),
        Except.ok (), Except.ok (), Except.ok ()⟩).2 ∧
    (InstallService ⟨Except.ok "p", Except.ok (),
        Except.error (OSErr.oserr 2), Except.ok (),
        Except.error (OSErr.oserr 9)⟩).1 =
      Except.error (Err.wrapped "SetupEventLogSource() failed"
        (OSErr.oserr 9)) ∧
    (InstallService ⟨Except.ok "p", Except.ok (),
        Except.error (OSErr.oserr 2), Except.ok (),
        Except.error (OSErr.oserr 9)⟩).2 =
      [SvcCall.exePath, SvcCall.connect, SvcCall.openService, SvcCall.create,
        SvcCall.installEventLog, SvcCall.delete] :=
  have h := InstallService_atomic_on_eventlog_failure
    ⟨Except.ok "p", Except.ok (), Except.ok (), Except.ok (), Except.ok ()⟩
    ⟨Except.ok "p", Except.ok (), Except.error (OSErr.oserr 2), Except.ok (),
      Except.error (OSErr.oserr 9)⟩
    "p" (OSErr.oserr 2) (OSErr.oserr 9) rfl rfl rfl rfl rfl
  ⟨(h.1 rfl).1, (h.1 rfl).2, h.2.1, h.2.2⟩
